import Mathlib

/-!
A shallow embedding of the geoarrow / geopolars-arrow geometry array code
(the files src/src/multipoint/array.rs, src/src/linestring/scalar.rs and
src/geopolars/geopolars-arrow/src/multipolygon/array.rs), together with
proofs about slicing, construction, Arrow conversion and the geozero
processor traversal.

Modelling conventions:

* arrow2 buffers (Buffer of f64, Bitmap, OffsetsBuffer of i64) are modelled as
  Lean lists; a window produced by slice_unchecked(offset, length) is the list
  (drop offset).take length.  Sharing versus copying of the backing store is
  not observable at the value level, so structural equality of lists models
  the structural equality of sliced arrays.
* The coordinate scalar (f64 in the code) is an opaque type parameter F: the
  library never computes with coordinate values, it only moves them, so every
  definition is polymorphic in F and witnesses instantiate F with Int.
* Offsets are modelled as List Nat.  The arrow2 OffsetsBuffer type guarantees
  (as its own type invariant) a non-empty, non-negative, monotonically
  non-decreasing buffer; monotonicity and bound containment appear as
  well-formedness hypotheses where a proof needs them.
* Panics (out-of-bounds indexing, unwrap of a failed downcast or check, and
  debug-mode overflow of usize subtraction) are modelled as Option failure;
  usize subtraction is the checked csub below.
* The geopolars-arrow crate is pinned to an arrow2 in which
  OffsetsBuffer::len() returns the number of elements (one less than the
  number of offsets) and OffsetsBuffer::slice takes the offset and length in
  element units (retaining length + 1 raw offsets); the newer tree under
  src/src uses len_proxy() and passes length + 1 explicitly.  Both therefore
  rebase the outer offsets to the window [offset, offset + length] and both
  report len = number of offsets - 1.  This reading is forced by the crates
  being self-consistent: the geopolars unit tests build a three-geometry
  array with a validity mask of length three, which passes check only when
  len() counts elements.
-/

set_option autoImplicit false

namespace GeoArrow

variable {F : Type}

/-- Checked usize subtraction: Rust debug builds panic when a - b underflows,
so the model returns none exactly on underflow. -/
def csub (a b : Nat) : Option Nat :=
  if b ≤ a then some (a - b) else none

/-- OffsetsBuffer::start_end(i): reads offsets[i] and offsets[i + 1],
panicking (none) when either index is out of bounds. -/
def start_end (offs : List Nat) (i : Nat) : Option (Nat × Nat) :=
  match offs[i]?, offs[i + 1]? with
  | some s, some e => some (s, e)
  | _, _ => none

/-- Evaluate an Option-producing function on every element of a list,
aborting at the first failure, like a Rust loop of fallible calls. -/
def mapOpt {α β : Type} (f : α → Option β) : List α → Option (List β)
  | [] => some []
  | a :: t =>
    match f a, mapOpt f t with
    | some b, some bs => some (b :: bs)
    | _, _ => none

/-- The validity logic of MultiPolygonArray::slice_unchecked
(geopolars-arrow multipolygon/array.rs lines 154-158): window the bitmap by
(offset, length), then keep it only when the window still has an unset bit.
The helper crate::slice::slice_validity_unchecked called by
MultiPointArray::slice_unchecked is not under src/; spec section 4.4 gives it
the same behaviour, so this single definition models both. -/
def slice_validity (validity : Option (List Bool)) (offset length : Nat) :
    Option (List Bool) :=
  match validity with
  | none => none
  | some bitmap =>
    let window := (bitmap.drop offset).take length
    if window.count false > 0 then some window else none

/-! ## MultiPointArray (src/src/multipoint/array.rs) -/

/-- MultiPointArray: x/y coordinate buffers, one level of geometry offsets,
optional validity bitmap. -/
structure MultiPointArray (F : Type) where
  x : List F
  y : List F
  geom_offsets : List Nat
  validity : Option (List Bool)
  deriving DecidableEq, Repr

namespace MultiPointArray

/-- len(): geom_offsets.len_proxy(), the number of geometries. -/
def len (a : MultiPointArray F) : Nat :=
  a.geom_offsets.length - 1

/-- check(x, y, validity_len, geom_offsets) from multipoint/array.rs:
errors when the validity length differs from len_proxy or when the x and y
buffers have different lengths; true means Ok. -/
def check (x y : List F) (validity_len : Option Nat) (geom_offsets : List Nat) :
    Bool :=
  (match validity_len with
   | some l => l == geom_offsets.length - 1
   | none => true)
  && (x.length == y.length)

/-- try_new: runs check and returns the array holding exactly the given
parts on success. -/
def try_new (x y : List F) (geom_offsets : List Nat)
    (validity : Option (List Bool)) : Option (MultiPointArray F) :=
  if check x y (validity.map List.length) geom_offsets then
    some ⟨x, y, geom_offsets, validity⟩
  else
    none

/-- slice_unchecked(offset, length): windows the validity mask and rebases
geom_offsets to the window [offset, offset + length] (length + 1 raw
offsets); x and y are untouched. -/
def slice_unchecked (a : MultiPointArray F) (offset length : Nat) :
    MultiPointArray F :=
  { a with
    validity := slice_validity a.validity offset length
    geom_offsets := (a.geom_offsets.drop offset).take (length + 1) }

/-- slice(offset, length): asserts offset + length does not exceed len,
then defers to slice_unchecked. -/
def slice (a : MultiPointArray F) (offset length : Nat) :
    Option (MultiPointArray F) :=
  if offset + length ≤ a.len then some (a.slice_unchecked offset length)
  else none

end MultiPointArray

/-! ## MultiPolygonArray (src/geopolars/geopolars-arrow/src/multipolygon/array.rs) -/

/-- MultiPolygonArray: x/y coordinate buffers, three offset levels
(geometry to polygon, polygon to ring, ring to coordinate), optional
validity bitmap. -/
structure MultiPolygonArray (F : Type) where
  x : List F
  y : List F
  geom_offsets : List Nat
  polygon_offsets : List Nat
  ring_offsets : List Nat
  validity : Option (List Bool)
  deriving DecidableEq, Repr

namespace MultiPolygonArray

/-- len(): geom_offsets.len(), the number of geometries (element count of
the offsets buffer in the pinned arrow2). -/
def len (a : MultiPolygonArray F) : Nat :=
  a.geom_offsets.length - 1

/-- check from multipolygon/array.rs: validity length must match the number
of geometries and the x and y buffers must have the same length. -/
def check (x y : List F) (validity_len : Option Nat) (geom_offsets : List Nat) :
    Bool :=
  (match validity_len with
   | some l => l == geom_offsets.length - 1
   | none => true)
  && (x.length == y.length)

/-- try_new: runs check and returns the array holding exactly the given
parts on success. -/
def try_new (x y : List F) (geom_offsets polygon_offsets ring_offsets : List Nat)
    (validity : Option (List Bool)) : Option (MultiPolygonArray F) :=
  if check x y (validity.map List.length) geom_offsets then
    some ⟨x, y, geom_offsets, polygon_offsets, ring_offsets, validity⟩
  else
    none

/-- slice_unchecked(offset, length) from the geopolars multipolygon code:
windows the validity mask, and re-slices every buffer - x, y, geom_offsets,
polygon_offsets and ring_offsets - by the same geometry-level window. -/
def slice_unchecked (a : MultiPolygonArray F) (offset length : Nat) :
    MultiPolygonArray F :=
  { x := (a.x.drop offset).take length
    y := (a.y.drop offset).take length
    geom_offsets := (a.geom_offsets.drop offset).take (length + 1)
    polygon_offsets := (a.polygon_offsets.drop offset).take (length + 1)
    ring_offsets := (a.ring_offsets.drop offset).take (length + 1)
    validity := slice_validity a.validity offset length }

/-- slice(offset, length): asserts offset + length does not exceed len,
then defers to slice_unchecked. -/
def slice (a : MultiPolygonArray F) (offset length : Nat) :
    Option (MultiPolygonArray F) :=
  if offset + length ≤ a.len then some (a.slice_unchecked offset length)
  else none

end MultiPolygonArray

/-! ## Scalar views -/

/-- The Point scalar view: borrowed coordinate buffers plus one coordinate
index (its shape is fixed by the construction site in linestring/scalar.rs). -/
structure Point (F : Type) where
  x : List F
  y : List F
  geom_index : Nat
  deriving DecidableEq, Repr

/-- The LineString scalar view from src/src/linestring/scalar.rs: borrowed
buffers, one offset level and one logical index. -/
structure LineString (F : Type) where
  x : List F
  y : List F
  geom_offsets : List Nat
  geom_index : Nat
  deriving DecidableEq, Repr

namespace LineString

/-- num_points: end - start of the view's offset range (panics, i.e. none,
when the index is out of the offsets buffer). -/
def num_points (v : LineString F) : Option Nat :=
  (start_end v.geom_offsets v.geom_index).bind fun se => csub se.2 se.1

/-- point(i) from linestring/scalar.rs: computes (start, end), returns None
when i > end - start, and otherwise the Point view at coordinate index
start + i. -/
def point (v : LineString F) (i : Nat) : Option (Point F) :=
  match start_end v.geom_offsets v.geom_index with
  | none => none
  | some (s, e) =>
    if i > e - s then none
    else some ⟨v.x, v.y, s + i⟩

end LineString

/-- The MultiPolygon scalar view returned by MultiPolygonArray::value:
borrowed buffers, all three offset levels and one logical index. -/
structure MultiPolygon (F : Type) where
  x : List F
  y : List F
  geom_offsets : List Nat
  polygon_offsets : List Nat
  ring_offsets : List Nat
  geom_index : Nat
  deriving DecidableEq, Repr

namespace MultiPolygonArray

/-- Modelled from the spec: GeometryArray::is_null lives in the trait file,
which is not under src/.  Spec section 4.2: is_null(i) reads bit i only if a
mask exists; absence of a mask means every slot is valid. -/
def is_null (a : MultiPolygonArray F) (i : Nat) : Bool :=
  match a.validity with
  | some bitmap => !(bitmap.getD i true)
  | none => false

/-- value(i): the MultiPolygon scalar view over this array at index i. -/
def value (a : MultiPolygonArray F) (i : Nat) : MultiPolygon F :=
  ⟨a.x, a.y, a.geom_offsets, a.polygon_offsets, a.ring_offsets, i⟩

/-- get(i): None when is_null(i), otherwise the scalar view. -/
def get (a : MultiPolygonArray F) (i : Nat) : Option (MultiPolygon F) :=
  if a.is_null i then none else some (a.value i)

end MultiPolygonArray

/-! ## The canonical Arrow nested-list encoding -/

/-- The fragment of the arrow2 array tree the conversions use: primitive
f64 arrays, struct arrays and large-list arrays, each with an optional
validity.  A failed downcast_ref in the Rust import corresponds to a
constructor mismatch here. -/
inductive ArrowArray (F : Type) where
  | primitive (values : List F) (validity : Option (List Bool))
  | struct (fields : List (ArrowArray F)) (validity : Option (List Bool))
  | list (offsets : List Nat) (values : ArrowArray F) (validity : Option (List Bool))

namespace MultiPolygonArray

/-- into_arrow from the multipolygon file: struct(x, y) leaf wrapped by the
ring, polygon and geometry list levels, with the validity attached only to
the outermost list. -/
def into_arrow (a : MultiPolygonArray F) : ArrowArray F :=
  .list a.geom_offsets
    (.list a.polygon_offsets
      (.list a.ring_offsets
        (.struct [.primitive a.x none, .primitive a.y none] none)
        none)
      none)
    a.validity

/-- TryFrom ListArray for MultiPolygonArray: downcast three list levels and
the struct leaf from the outside in (none on a mismatch, which panics in the
source), read offsets, coordinate buffers and the outer validity, and build
the array through the checked constructor. -/
def try_from (v : ArrowArray F) : Option (MultiPolygonArray F) :=
  match v with
  | .list geom_offsets
      (.list polygon_offsets
        (.list ring_offsets (.struct fields _) _)
        _)
      validity =>
    match fields with
    | .primitive xs _ :: .primitive ys _ :: _ =>
      try_new xs ys geom_offsets polygon_offsets ring_offsets validity
    | _ => none
  | _ => none

end MultiPolygonArray

namespace MultiPointArray

/-- Modelled from the spec: MultiPointArray::into_arrow delegates to
LineStringArray (same physical layout), whose array.rs is not under src/.
Spec section 4.5: one list level wrapping a struct(x, y) leaf, with the
validity mask attached to the outermost list. -/
def into_arrow (a : MultiPointArray F) : ArrowArray F :=
  .list a.geom_offsets
    (.struct [.primitive a.x none, .primitive a.y none] none)
    a.validity

/-- TryFrom ListArray for MultiPointArray (from multipoint/array.rs):
downcast the single list level and the struct leaf, read offsets, coordinate
buffers and validity, and build the array through the checked constructor. -/
def try_from (v : ArrowArray F) : Option (MultiPointArray F) :=
  match v with
  | .list geom_offsets (.struct fields _) validity =>
    match fields with
    | .primitive xs _ :: .primitive ys _ :: _ =>
      try_new xs ys geom_offsets validity
    | _ => none
  | _ => none

end MultiPointArray

/-! ## Geozero processor traversal -/

/-- One event of the GeomProcessor protocol, recording the begin/end calls
with the size and index arguments the source passes (the Bool on the polygon
and linestring events is the tagged flag, always false here). -/
inductive GeoEvent (F : Type) where
  | geometrycollection_begin (size idx : Nat)
  | multipoint_begin (size idx : Nat)
  | multipolygon_begin (size idx : Nat)
  | polygon_begin (tagged : Bool) (size idx : Nat)
  | linestring_begin (tagged : Bool) (size idx : Nat)
  | xy (x y : F) (idx : Nat)
  | linestring_end (tagged : Bool) (idx : Nat)
  | polygon_end (tagged : Bool) (idx : Nat)
  | multipoint_end (idx : Nat)
  | multipolygon_end (idx : Nat)
  | geometrycollection_end (idx : Nat)
  deriving DecidableEq, Repr

namespace MultiPointArray

/-- process_geom from multipoint/array.rs: geometrycollection_begin, then
per geometry multipoint_begin, the xy events and multipoint_end, and finally
geometrycollection_end(num_geometries - 1); any out-of-bounds read or usize
underflow aborts the traversal. -/
def process_geom (a : MultiPointArray F) : Option (List (GeoEvent F)) :=
  (mapOpt (fun g =>
      (start_end a.geom_offsets g).bind fun se =>
      (csub se.2 se.1).bind fun m =>
      (mapOpt (fun j =>
          (a.x[se.1 + j]?).bind fun xv =>
          (a.y[se.1 + j]?).bind fun yv =>
          some (GeoEvent.xy xv yv j)) (List.range m)).bind fun coords =>
      some (GeoEvent.multipoint_begin m g :: (coords ++ [GeoEvent.multipoint_end g])))
    (List.range a.len)).bind fun geoms =>
  (csub a.len 1).bind fun endIdx =>
  some (GeoEvent.geometrycollection_begin a.len 0 ::
    (geoms.flatten ++ [GeoEvent.geometrycollection_end endIdx]))

/-- The event sequence the claim describes for a MultiPointArray, written as
a total function: collection begin, per geometry a multipoint begin with its
point count, the xy events with local indices, the matching ends, and the
final collection end. -/
def expected_events [Inhabited F] (a : MultiPointArray F) : List (GeoEvent F) :=
  let geomEv : Nat → List (GeoEvent F) := fun g =>
    let s := a.geom_offsets.getD g 0
    let e := a.geom_offsets.getD (g + 1) 0
    GeoEvent.multipoint_begin (e - s) g ::
      (((List.range (e - s)).map fun j =>
          GeoEvent.xy (a.x.getD (s + j) default) (a.y.getD (s + j) default) j)
        ++ [GeoEvent.multipoint_end g])
  GeoEvent.geometrycollection_begin a.len 0 ::
    (((List.range a.len).map geomEv).flatten
      ++ [GeoEvent.geometrycollection_end (a.len - 1)])

/-- Well-formedness of a MultiPointArray: the invariants of spec section 3,
which the arrow2 OffsetsBuffer type also guarantees for the offsets. -/
def wf (a : MultiPointArray F) : Prop :=
  a.geom_offsets ≠ [] ∧
  a.geom_offsets.Pairwise (· ≤ ·) ∧
  (∀ v ∈ a.geom_offsets, v ≤ a.x.length) ∧
  a.x.length = a.y.length

instance (a : MultiPointArray F) : Decidable a.wf := by
  unfold wf; infer_instance

end MultiPointArray

namespace MultiPolygonArray

/-- process_geom from the geopolars multipolygon file: the three-level
depth-first walk emitting geometrycollection, multipolygon, polygon,
linestring and xy events, ending with
geometrycollection_end(num_geometries - 1); any out-of-bounds read or usize
underflow aborts the traversal. -/
def process_geom (a : MultiPolygonArray F) : Option (List (GeoEvent F)) :=
  (mapOpt (fun g =>
      (start_end a.geom_offsets g).bind fun sep =>
      (csub sep.2 sep.1).bind fun np =>
      (mapOpt (fun pj =>
          (start_end a.polygon_offsets (sep.1 + pj)).bind fun ser =>
          (csub ser.2 ser.1).bind fun nr =>
          (mapOpt (fun rj =>
              (start_end a.ring_offsets (ser.1 + rj)).bind fun sec =>
              (csub sec.2 sec.1).bind fun nc =>
              (mapOpt (fun cj =>
                  (a.x[sec.1 + cj]?).bind fun xv =>
                  (a.y[sec.1 + cj]?).bind fun yv =>
                  some (GeoEvent.xy xv yv cj)) (List.range nc)).bind fun coords =>
              some (GeoEvent.linestring_begin false nc rj ::
                (coords ++ [GeoEvent.linestring_end false rj]))) (List.range nr)).bind fun rings =>
          some (GeoEvent.polygon_begin false nr pj ::
            (rings.flatten ++ [GeoEvent.polygon_end false pj]))) (List.range np)).bind fun polys =>
      some (GeoEvent.multipolygon_begin np g ::
        (polys.flatten ++ [GeoEvent.multipolygon_end g])))
    (List.range a.len)).bind fun geoms =>
  (csub a.len 1).bind fun endIdx =>
  some (GeoEvent.geometrycollection_begin a.len 0 ::
    (geoms.flatten ++ [GeoEvent.geometrycollection_end endIdx]))

/-- The event sequence the claim describes for a MultiPolygonArray, written
as a total function over the offset hierarchy. -/
def expected_events [Inhabited F] (a : MultiPolygonArray F) : List (GeoEvent F) :=
  let ringEv : Nat → Nat → List (GeoEvent F) := fun sr rj =>
    let sc := a.ring_offsets.getD (sr + rj) 0
    let ec := a.ring_offsets.getD (sr + rj + 1) 0
    GeoEvent.linestring_begin false (ec - sc) rj ::
      (((List.range (ec - sc)).map fun cj =>
          GeoEvent.xy (a.x.getD (sc + cj) default) (a.y.getD (sc + cj) default) cj)
        ++ [GeoEvent.linestring_end false rj])
  let polyEv : Nat → Nat → List (GeoEvent F) := fun sp pj =>
    let sr := a.polygon_offsets.getD (sp + pj) 0
    let er := a.polygon_offsets.getD (sp + pj + 1) 0
    GeoEvent.polygon_begin false (er - sr) pj ::
      (((List.range (er - sr)).map (ringEv sr)).flatten
        ++ [GeoEvent.polygon_end false pj])
  let geomEv : Nat → List (GeoEvent F) := fun g =>
    let sp := a.geom_offsets.getD g 0
    let ep := a.geom_offsets.getD (g + 1) 0
    GeoEvent.multipolygon_begin (ep - sp) g ::
      (((List.range (ep - sp)).map (polyEv sp)).flatten
        ++ [GeoEvent.multipolygon_end g])
  GeoEvent.geometrycollection_begin a.len 0 ::
    (((List.range a.len).map geomEv).flatten
      ++ [GeoEvent.geometrycollection_end (a.len - 1)])

/-- Well-formedness of a MultiPolygonArray: the invariants of spec
section 3 across all three offset levels. -/
def wf (a : MultiPolygonArray F) : Prop :=
  a.geom_offsets ≠ [] ∧
  a.polygon_offsets ≠ [] ∧
  a.ring_offsets ≠ [] ∧
  a.geom_offsets.Pairwise (· ≤ ·) ∧
  a.polygon_offsets.Pairwise (· ≤ ·) ∧
  a.ring_offsets.Pairwise (· ≤ ·) ∧
  (∀ v ∈ a.geom_offsets, v ≤ a.polygon_offsets.length - 1) ∧
  (∀ v ∈ a.polygon_offsets, v ≤ a.ring_offsets.length - 1) ∧
  (∀ v ∈ a.ring_offsets, v ≤ a.x.length) ∧
  a.x.length = a.y.length

instance (a : MultiPolygonArray F) : Decidable a.wf := by
  unfold wf; infer_instance

end MultiPolygonArray

/-! ## Concrete example arrays (used to instantiate the theorems) -/

/-- A two-geometry MultiPointArray: MULTIPOINT(0 1, 1 2) and
MULTIPOINT(3 4, 5 6), the data of the repository's own slice test. -/
def exMultiPoint : MultiPointArray Int :=
  ⟨[0, 1, 3, 5], [1, 2, 4, 6], [0, 2, 4], none⟩

/-- The same MultiPointArray with a validity mask marking the second
geometry null. -/
def exMultiPointV : MultiPointArray Int :=
  ⟨[0, 1, 3, 5], [1, 2, 4, 6], [0, 2, 4], some [true, false]⟩

/-- A two-geometry MultiPolygonArray, each geometry one polygon with one
two-point ring. -/
def exMultiPolygon : MultiPolygonArray Int :=
  ⟨[1, 2, 3, 4], [5, 6, 7, 8], [0, 1, 2], [0, 1, 2], [0, 2, 4], none⟩

/-- The same MultiPolygonArray with a validity mask marking the second
geometry null. -/
def exMultiPolygonV : MultiPolygonArray Int :=
  ⟨[1, 2, 3, 4], [5, 6, 7, 8], [0, 1, 2], [0, 1, 2], [0, 2, 4], some [true, false]⟩

/-- The empty MultiPointArray. -/
def exEmptyMultiPoint : MultiPointArray Int := ⟨[], [], [0], none⟩

/-- The empty MultiPolygonArray. -/
def exEmptyMultiPolygon : MultiPolygonArray Int :=
  ⟨[], [], [0], [0], [0], none⟩

/-- A LineString scalar view onto the first geometry of the exMultiPoint
buffers (LineString and MultiPoint share one physical layout). -/
def exLineString : LineString Int :=
  ⟨[0, 1, 3, 5], [1, 2, 4, 6], [0, 2, 4], 0⟩

/-! ## Helper lemmas -/

/-- Windowing a list twice composes into one window when the second window
fits inside the first. -/
theorem window_window {α : Type} (xs : List α) (o1 l1 o2 l2 : Nat)
    (h : o2 + l2 ≤ l1) :
    (((xs.drop o1).take l1).drop o2).take l2 = (xs.drop (o1 + o2)).take l2 := by
  rw [List.drop_take, List.drop_drop, List.take_take]
  congr 1
  omega

theorem csub_of_le {a b : Nat} (h : b ≤ a) : csub a b = some (a - b) := by
  simp [csub, h]

theorem mapOpt_eq_some_map {α β : Type} (f : α → Option β) (g : α → β)
    (l : List α) (h : ∀ x ∈ l, f x = some (g x)) :
    mapOpt f l = some (l.map g) := by
  induction l with
  | nil => rfl
  | cons a t ih =>
    rw [List.map_cons]
    simp only [mapOpt]
    rw [h a (by simp), ih (fun x hx => h x (by simp [hx]))]

theorem start_end_eq (offs : List Nat) (i : Nat) (h : i + 1 < offs.length) :
    start_end offs i = some (offs.getD i 0, offs.getD (i + 1) 0) := by
  unfold start_end
  rw [List.getElem?_eq_getElem (by omega : i < offs.length),
    List.getElem?_eq_getElem h,
    List.getD_eq_getElem _ _ (by omega : i < offs.length),
    List.getD_eq_getElem _ _ h]

theorem pairwise_getD_le (offs : List Nat) (hp : offs.Pairwise (· ≤ ·))
    (i j : Nat) (hij : i ≤ j) (hj : j < offs.length) :
    offs.getD i 0 ≤ offs.getD j 0 := by
  rcases Nat.eq_or_lt_of_le hij with rfl | hlt
  · exact le_refl _
  · have hi : i < offs.length := lt_trans hlt hj
    have hg := List.pairwise_iff_get.mp hp ⟨i, hi⟩ ⟨j, hj⟩ hlt
    rw [List.getD_eq_getElem _ _ hi, List.getD_eq_getElem _ _ hj]
    simpa [List.get_eq_getElem] using hg

theorem getD_le_of_mem_bound (offs : List Nat) (bound : Nat)
    (hb : ∀ v ∈ offs, v ≤ bound) (i : Nat) (hi : i < offs.length) :
    offs.getD i 0 ≤ bound := by
  rw [List.getD_eq_getElem _ _ hi]
  exact hb _ (List.getElem_mem hi)

theorem getElem?_eq_some_getD {α : Type} [Inhabited α] (l : List α) (i : Nat)
    (h : i < l.length) : l[i]? = some (l.getD i default) := by
  rw [List.getElem?_eq_getElem h, List.getD_eq_getElem _ _ h]

/-- slice_validity composes the same way windows do. -/
theorem slice_validity_comp (v : Option (List Bool)) (o1 l1 o2 l2 : Nat)
    (h : o2 + l2 ≤ l1) :
    slice_validity (slice_validity v o1 l1) o2 l2 = slice_validity v (o1 + o2) l2 := by
  cases v with
  | none => rfl
  | some b =>
    have hww : ((((b.drop o1).take l1).drop o2).take l2) = (b.drop (o1 + o2)).take l2 :=
      window_window b o1 l1 o2 l2 h
    by_cases h1 : ((b.drop o1).take l1).count false > 0
    · have hfst : slice_validity (some b) o1 l1 = some ((b.drop o1).take l1) := by
        simp [slice_validity, h1]
      rw [hfst]
      simp only [slice_validity]
      rw [hww]
    · have h0 : ((b.drop o1).take l1).count false = 0 := Nat.eq_zero_of_not_pos h1
      have hfst : slice_validity (some b) o1 l1 = none := by
        simp [slice_validity, h1]
      rw [hfst]
      have hsub : ((((b.drop o1).take l1).drop o2).take l2).Sublist ((b.drop o1).take l1) :=
        (List.take_sublist _ _).trans (List.drop_sublist _ _)
      have h2 : (((b.drop (o1 + o2)).take l2)).count false = 0 := by
        rw [← hww]
        exact Nat.le_zero.mp (h0 ▸ hsub.count_le false)
      simp [slice_validity, h2]

theorem mpoint_len_slice_unchecked (a : MultiPointArray F) (o l : Nat)
    (h : o + l ≤ a.len) : (a.slice_unchecked o l).len = l := by
  unfold MultiPointArray.len at *
  unfold MultiPointArray.slice_unchecked
  simp only [List.length_take, List.length_drop]
  omega

theorem mpolygon_len_slice_unchecked (a : MultiPolygonArray F) (o l : Nat)
    (h : o + l ≤ a.len) : (a.slice_unchecked o l).len = l := by
  unfold MultiPolygonArray.len at *
  unfold MultiPolygonArray.slice_unchecked
  simp only [List.length_take, List.length_drop]
  omega

theorem mpoint_check_iff (x y : List F) (v : Option (List Bool))
    (go : List Nat) :
    MultiPointArray.check x y (v.map List.length) go = true ↔
      (x.length = y.length ∧ ∀ b ∈ v, b.length = go.length - 1) := by
  cases v with
  | none => simp [MultiPointArray.check]
  | some b => simp [MultiPointArray.check, and_comm]

theorem mpolygon_check_iff (x y : List F) (v : Option (List Bool))
    (go : List Nat) :
    MultiPolygonArray.check x y (v.map List.length) go = true ↔
      (x.length = y.length ∧ ∀ b ∈ v, b.length = go.length - 1) := by
  cases v with
  | none => simp [MultiPolygonArray.check]
  | some b => simp [MultiPolygonArray.check, and_comm]

/-! ## Claim theorems -/

/-- C4: the checked constructor try_new (and new, which runs the same check)
errors exactly when the x and y buffers have different lengths or a validity
mask is present whose length differs from the number of geometries; for
every other input it succeeds and returns the array holding exactly the
given buffers, offsets and validity. -/
theorem c4_checked_construction (x y : List F) (go po ro : List Nat)
    (v : Option (List Bool)) :
    (MultiPointArray.try_new x y go v = some ⟨x, y, go, v⟩ ↔
      (x.length = y.length ∧ ∀ b ∈ v, b.length = go.length - 1)) ∧
    (MultiPointArray.try_new x y go v = none ↔
      ¬(x.length = y.length ∧ ∀ b ∈ v, b.length = go.length - 1)) ∧
    (MultiPolygonArray.try_new x y go po ro v = some ⟨x, y, go, po, ro, v⟩ ↔
      (x.length = y.length ∧ ∀ b ∈ v, b.length = go.length - 1)) ∧
    (MultiPolygonArray.try_new x y go po ro v = none ↔
      ¬(x.length = y.length ∧ ∀ b ∈ v, b.length = go.length - 1)) := by
  have h1 := mpoint_check_iff x y v go
  have h2 := mpolygon_check_iff x y v go
  refine ⟨?_, ?_, ?_, ?_⟩
  · rw [← h1]
    unfold MultiPointArray.try_new
    cases hb : MultiPointArray.check x y (v.map List.length) go <;> simp [hb]
  · rw [← h1]
    unfold MultiPointArray.try_new
    cases hb : MultiPointArray.check x y (v.map List.length) go <;> simp [hb]
  · rw [← h2]
    unfold MultiPolygonArray.try_new
    cases hb : MultiPolygonArray.check x y (v.map List.length) go <;> simp [hb]
  · rw [← h2]
    unfold MultiPolygonArray.try_new
    cases hb : MultiPolygonArray.check x y (v.map List.length) go <;> simp [hb]

/-- C4 witness: try_new succeeds on a well-formed input with a validity mask
and returns exactly the given parts. -/
theorem c4_checked_construction_witness :
    MultiPointArray.try_new [0, 1, 3, 5] [1, 2, 4, 6] [0, 2, 4]
      (some [true, false]) =
      some (⟨[0, 1, 3, 5], [1, 2, 4, 6], [0, 2, 4], some [true, false]⟩ :
        MultiPointArray Int) :=
  (c4_checked_construction [0, 1, 3, 5] [1, 2, 4, 6] [0, 2, 4] [] []
    (some [true, false])).1.mpr (by decide)

/-- C8: checked slicing fails exactly when offset + length exceeds len, and
on success the resulting array has length equal to the requested length. -/
theorem c8_checked_slice (a : MultiPointArray F) (b : MultiPolygonArray F)
    (o l : Nat) :
    ((a.slice o l).map MultiPointArray.len =
      if o + l ≤ a.len then some l else none) ∧
    ((b.slice o l).map MultiPolygonArray.len =
      if o + l ≤ b.len then some l else none) := by
  constructor
  · unfold MultiPointArray.slice
    by_cases h : o + l ≤ a.len
    · rw [if_pos h, if_pos h]
      exact congrArg some (mpoint_len_slice_unchecked a o l h)
    · rw [if_neg h, if_neg h]
      rfl
  · unfold MultiPolygonArray.slice
    by_cases h : o + l ≤ b.len
    · rw [if_pos h, if_pos h]
      exact congrArg some (mpolygon_len_slice_unchecked b o l h)
    · rw [if_neg h, if_neg h]
      rfl

/-- C8 witness: the characterization evaluated on the concrete example
arrays at window (1, 1). -/
theorem c8_checked_slice_witness :
    ((exMultiPoint.slice 1 1).map MultiPointArray.len =
      if 1 + 1 ≤ exMultiPoint.len then some 1 else none) ∧
    ((exMultiPolygon.slice 1 1).map MultiPolygonArray.len =
      if 1 + 1 ≤ exMultiPolygon.len then some 1 else none) :=
  c8_checked_slice exMultiPoint exMultiPolygon 1 1

/-- C6: for an array carrying a validity mask and an in-bounds window, the
sliced array keeps the windowed mask exactly when the window still contains
an unset bit, and drops the mask entirely when every bit in the window is
set. -/
theorem c6_validity_dropped_when_no_nulls (b : MultiPolygonArray F)
    (v : List Bool) (o l : Nat) (hv : b.validity = some v)
    (h : o + l ≤ b.len) :
    b.slice o l = some (b.slice_unchecked o l) ∧
    ((b.slice_unchecked o l).validity = none ↔ false ∉ (v.drop o).take l) ∧
    (false ∈ (v.drop o).take l →
      (b.slice_unchecked o l).validity = some ((v.drop o).take l)) := by
  refine ⟨by simp [MultiPolygonArray.slice, h], ?_, ?_⟩
  · simp only [MultiPolygonArray.slice_unchecked, slice_validity, hv]
    by_cases hc : ((v.drop o).take l).count false > 0
    · simp [hc, List.count_pos_iff.mp hc]
    · have hm : false ∉ (v.drop o).take l := fun hm => hc (List.count_pos_iff.mpr hm)
      simp [hc, hm]
  · intro hm
    simp only [MultiPolygonArray.slice_unchecked, slice_validity, hv]
    simp [List.count_pos_iff.mpr hm]

/-- C6 witness: slicing the masked example array to the window holding its
null keeps the mask, and the characterization holds at that input. -/
theorem c6_validity_dropped_witness :
    exMultiPolygonV.slice 1 1 = some (exMultiPolygonV.slice_unchecked 1 1) ∧
    ((exMultiPolygonV.slice_unchecked 1 1).validity = none ↔
      false ∉ (([true, false] : List Bool).drop 1).take 1) ∧
    (false ∈ (([true, false] : List Bool).drop 1).take 1 →
      (exMultiPolygonV.slice_unchecked 1 1).validity =
        some ((([true, false] : List Bool).drop 1).take 1)) :=
  c6_validity_dropped_when_no_nulls exMultiPolygonV [true, false] 1 1 rfl (by decide)

/-- C5: for an index below the length, get returns None exactly when a
validity mask is present with bit i unset; with no mask, get always returns
the scalar view at i. -/
theorem c5_get_none_iff_null (a : MultiPolygonArray F) (i : Nat)
    (hi : i < a.len) (hv : ∀ bm ∈ a.validity, bm.length = a.len) :
    (a.get i = none ↔ ∃ bm, a.validity = some bm ∧ bm.getD i true = false) ∧
    (a.validity = none → a.get i = some (a.value i)) := by
  constructor
  · cases hvv : a.validity with
    | none => simp [MultiPolygonArray.get, MultiPolygonArray.is_null, hvv]
    | some bm =>
      by_cases hb : bm.getD i true = false
      · simp [MultiPolygonArray.get, MultiPolygonArray.is_null, hvv, hb]
      · have hb2 : bm.getD i true = true := by
          revert hb; cases bm.getD i true <;> simp
        simp [MultiPolygonArray.get, MultiPolygonArray.is_null, hvv, hb2]
  · intro hn
    simp [MultiPolygonArray.get, MultiPolygonArray.is_null, hn]

/-- C5 witness: on the masked example array get(1) is None, and on the
unmasked example get(0) is the scalar view. -/
theorem c5_get_none_witness :
    exMultiPolygonV.get 1 = none ∧
    exMultiPolygon.get 0 = some (exMultiPolygon.value 0) :=
  ⟨(c5_get_none_iff_null exMultiPolygonV 1 (by decide) (by decide)).1.mpr
      ⟨[true, false], rfl, by decide⟩,
    (c5_get_none_iff_null exMultiPolygon 0 (by decide) (by decide)).2 rfl⟩

/-- C10: with n = num_points, the LineString point accessor returns Some for
every i up to and including n - point(n) being the view one coordinate past
the end of this linestring - and None only for i above n. -/
theorem c10_point_one_past_end (v : LineString F) (s e n : Nat)
    (hse : start_end v.geom_offsets v.geom_index = some (s, e))
    (hn : v.num_points = some n) :
    (∀ i, i ≤ n → v.point i = some ⟨v.x, v.y, s + i⟩) ∧
    (∀ i, n < i → v.point i = none) ∧
    v.point n = some ⟨v.x, v.y, e⟩ := by
  unfold LineString.num_points at hn
  rw [hse] at hn
  simp only [Option.some_bind] at hn
  unfold csub at hn
  by_cases hle : s ≤ e
  case neg => rw [if_neg hle] at hn; cases hn
  rw [if_pos hle] at hn
  have hsn : e - s = n := by injection hn
  refine ⟨?_, ?_, ?_⟩
  · intro i hi
    simp only [LineString.point, hse]
    rw [if_neg (by omega : ¬ i > e - s)]
  · intro i hi
    simp only [LineString.point, hse]
    rw [if_pos (by omega : i > e - s)]
  · simp only [LineString.point, hse]
    rw [if_neg (by omega : ¬ n > e - s)]
    have hpe : s + n = e := by omega
    rw [hpe]

/-- C10 witness: on a concrete view with two points, point(2) is Some (the
coordinate one past the end) and point(3) is None. -/
theorem c10_point_witness :
    exLineString.point 2 = some ⟨[0, 1, 3, 5], [1, 2, 4, 6], 2⟩ ∧
    exLineString.point 3 = none :=
  ⟨(c10_point_one_past_end exLineString 0 2 2 rfl rfl).2.2,
    (c10_point_one_past_end exLineString 0 2 2 rfl rfl).2.1 3 (by omega)⟩

/-- C1: evaluating MultiPolygonArray slicing at a concrete failing input:
the geopolars slice_unchecked re-slices the x/y coordinate buffers and the
inner polygon and ring offset levels by the geometry-level window, so after
slice(1, 1) they are not the full-sized originals the claim requires, and
the sliced array no longer satisfies the cross-level offset invariants. -/
theorem c1_multipolygon_slice_reslices_inner :
    exMultiPolygon.wf ∧
    exMultiPolygon.slice 1 1 = some (exMultiPolygon.slice_unchecked 1 1) ∧
    exMultiPolygon.slice_unchecked 1 1 =
      (⟨[2], [6], [1, 2], [1, 2], [2, 4], none⟩ : MultiPolygonArray Int) ∧
    (exMultiPolygon.slice_unchecked 1 1).x ≠ exMultiPolygon.x ∧
    (exMultiPolygon.slice_unchecked 1 1).polygon_offsets ≠
      exMultiPolygon.polygon_offsets ∧
    (exMultiPolygon.slice_unchecked 1 1).ring_offsets ≠
      exMultiPolygon.ring_offsets ∧
    ¬ (exMultiPolygon.slice_unchecked 1 1).wf := by
  decide

/-- C9: on an array of length zero, process_geom aborts: the final
geometrycollection_end(num_geometries - 1) underflows, so the degenerate
begin/end pair is never successfully emitted. -/
theorem c9_process_geom_empty_aborts (a : MultiPointArray F)
    (b : MultiPolygonArray F) (ha : a.len = 0) (hb : b.len = 0) :
    a.process_geom = none ∧ b.process_geom = none := by
  constructor
  · unfold MultiPointArray.process_geom
    rw [ha]
    rfl
  · unfold MultiPolygonArray.process_geom
    rw [hb]
    rfl

/-- C9 witness: both empty example arrays abort. -/
theorem c9_empty_witness :
    exEmptyMultiPoint.process_geom = none ∧
    exEmptyMultiPolygon.process_geom = none :=
  c9_process_geom_empty_aborts exEmptyMultiPoint exEmptyMultiPolygon rfl rfl

/-- C3: exporting with into_arrow and importing back with try_from is the
identity on any array whose buffers satisfy the construction invariants
(structural equality of all offsets, coordinates and validity). -/
theorem c3_arrow_roundtrip (a : MultiPointArray F) (b : MultiPolygonArray F)
    (hax : a.x.length = a.y.length) (hav : ∀ bm ∈ a.validity, bm.length = a.len)
    (hbx : b.x.length = b.y.length) (hbv : ∀ bm ∈ b.validity, bm.length = b.len) :
    MultiPointArray.try_from a.into_arrow = some a ∧
    MultiPolygonArray.try_from b.into_arrow = some b := by
  constructor
  · show MultiPointArray.try_new a.x a.y a.geom_offsets a.validity = some a
    unfold MultiPointArray.try_new
    rw [if_pos ((mpoint_check_iff a.x a.y a.validity
      a.geom_offsets).mpr ⟨hax, hav⟩)]
  · show MultiPolygonArray.try_new b.x b.y b.geom_offsets b.polygon_offsets
      b.ring_offsets b.validity = some b
    unfold MultiPolygonArray.try_new
    rw [if_pos ((mpolygon_check_iff b.x b.y b.validity
      b.geom_offsets).mpr ⟨hbx, hbv⟩)]

/-- C3 witness: the round trip evaluated on the masked example arrays. -/
theorem c3_arrow_roundtrip_witness :
    MultiPointArray.try_from exMultiPointV.into_arrow = some exMultiPointV ∧
    MultiPolygonArray.try_from exMultiPolygonV.into_arrow = some exMultiPolygonV :=
  c3_arrow_roundtrip exMultiPointV exMultiPolygonV
    (by decide) (by decide) (by decide) (by decide)

theorem mpoint_slice_unchecked_comp (a : MultiPointArray F)
    (o1 l1 o2 l2 : Nat) (h : o2 + l2 ≤ l1) :
    (a.slice_unchecked o1 l1).slice_unchecked o2 l2 =
      a.slice_unchecked (o1 + o2) l2 := by
  unfold MultiPointArray.slice_unchecked
  dsimp only
  rw [slice_validity_comp a.validity o1 l1 o2 l2 h,
    window_window a.geom_offsets o1 (l1 + 1) o2 (l2 + 1) (by omega)]

theorem mpolygon_slice_unchecked_comp (a : MultiPolygonArray F)
    (o1 l1 o2 l2 : Nat) (h : o2 + l2 ≤ l1) :
    (a.slice_unchecked o1 l1).slice_unchecked o2 l2 =
      a.slice_unchecked (o1 + o2) l2 := by
  unfold MultiPolygonArray.slice_unchecked
  dsimp only
  rw [slice_validity_comp a.validity o1 l1 o2 l2 h,
    window_window a.x o1 l1 o2 l2 h,
    window_window a.y o1 l1 o2 l2 h,
    window_window a.geom_offsets o1 (l1 + 1) o2 (l2 + 1) (by omega),
    window_window a.polygon_offsets o1 (l1 + 1) o2 (l2 + 1) (by omega),
    window_window a.ring_offsets o1 (l1 + 1) o2 (l2 + 1) (by omega)]

/-- C2: for windows within bounds, slicing twice equals slicing once with
the composed window, structurally, for both array kinds. -/
theorem c2_slice_composition (a : MultiPointArray F) (b : MultiPolygonArray F)
    (o1 l1 o2 l2 : Nat) (ha : o1 + l1 ≤ a.len) (hb : o1 + l1 ≤ b.len)
    (h2 : o2 + l2 ≤ l1) :
    ((a.slice o1 l1).bind fun s => s.slice o2 l2) = a.slice (o1 + o2) l2 ∧
    ((b.slice o1 l1).bind fun s => s.slice o2 l2) = b.slice (o1 + o2) l2 := by
  constructor
  · have hs1 : a.slice o1 l1 = some (a.slice_unchecked o1 l1) := by
      simp [MultiPointArray.slice, ha]
    rw [hs1, Option.some_bind]
    have hlen : (a.slice_unchecked o1 l1).len = l1 :=
      mpoint_len_slice_unchecked a o1 l1 ha
    have hs2 : (a.slice_unchecked o1 l1).slice o2 l2 =
        some ((a.slice_unchecked o1 l1).slice_unchecked o2 l2) := by
      simp [MultiPointArray.slice, hlen, h2]
    have hcond : o1 + o2 + l2 ≤ a.len := by omega
    rw [hs2, mpoint_slice_unchecked_comp a o1 l1 o2 l2 h2]
    simp [MultiPointArray.slice, hcond]
  · have hs1 : b.slice o1 l1 = some (b.slice_unchecked o1 l1) := by
      simp [MultiPolygonArray.slice, hb]
    rw [hs1, Option.some_bind]
    have hlen : (b.slice_unchecked o1 l1).len = l1 :=
      mpolygon_len_slice_unchecked b o1 l1 hb
    have hs2 : (b.slice_unchecked o1 l1).slice o2 l2 =
        some ((b.slice_unchecked o1 l1).slice_unchecked o2 l2) := by
      simp [MultiPolygonArray.slice, hlen, h2]
    have hcond : o1 + o2 + l2 ≤ b.len := by omega
    rw [hs2, mpolygon_slice_unchecked_comp b o1 l1 o2 l2 h2]
    simp [MultiPolygonArray.slice, hcond]

/-- C2 witness: composition evaluated on the example arrays with windows
(1, 1) then (0, 1). -/
theorem c2_slice_composition_witness :
    ((exMultiPoint.slice 1 1).bind fun s => s.slice 0 1) =
      exMultiPoint.slice (1 + 0) 1 ∧
    ((exMultiPolygon.slice 1 1).bind fun s => s.slice 0 1) =
      exMultiPolygon.slice (1 + 0) 1 :=
  c2_slice_composition exMultiPoint exMultiPolygon 1 1 0 1
    (by decide) (by decide) (by decide)

theorem mpoint_process_geom_eq_expected [Inhabited F]
    (a : MultiPointArray F) (hw : a.wf) (hn : 1 ≤ a.len) :
    a.process_geom = some a.expected_events := by
  obtain ⟨hne, hpw, hbound, hxy⟩ := hw
  have hlen : a.len + 1 = a.geom_offsets.length := by
    have h0 : 0 < a.geom_offsets.length := List.length_pos.mpr hne
    unfold MultiPointArray.len
    omega
  have hside : ∀ g ∈ List.range a.len,
      ((start_end a.geom_offsets g).bind fun se =>
        (csub se.2 se.1).bind fun m =>
        (mapOpt (fun j =>
            (a.x[se.1 + j]?).bind fun xv =>
            (a.y[se.1 + j]?).bind fun yv =>
            some (GeoEvent.xy xv yv j)) (List.range m)).bind fun coords =>
        some (GeoEvent.multipoint_begin m g ::
          (coords ++ [GeoEvent.multipoint_end g]))) =
      some (GeoEvent.multipoint_begin
          (a.geom_offsets.getD (g + 1) 0 - a.geom_offsets.getD g 0) g ::
        (((List.range
            (a.geom_offsets.getD (g + 1) 0 - a.geom_offsets.getD g 0)).map fun j =>
          GeoEvent.xy (a.x.getD (a.geom_offsets.getD g 0 + j) default)
            (a.y.getD (a.geom_offsets.getD g 0 + j) default) j)
          ++ [GeoEvent.multipoint_end g])) := by
    intro g hg
    rw [List.mem_range] at hg
    have hg1 : g + 1 < a.geom_offsets.length := by omega
    have hse : a.geom_offsets.getD g 0 ≤ a.geom_offsets.getD (g + 1) 0 :=
      pairwise_getD_le a.geom_offsets hpw g (g + 1) (by omega) hg1
    have hex : a.geom_offsets.getD (g + 1) 0 ≤ a.x.length :=
      getD_le_of_mem_bound a.geom_offsets a.x.length hbound (g + 1) hg1
    rw [start_end_eq a.geom_offsets g hg1, Option.some_bind]
    dsimp only
    rw [csub_of_le hse, Option.some_bind]
    have hinner : ∀ j ∈ List.range
        (a.geom_offsets.getD (g + 1) 0 - a.geom_offsets.getD g 0),
        ((a.x[a.geom_offsets.getD g 0 + j]?).bind fun xv =>
          (a.y[a.geom_offsets.getD g 0 + j]?).bind fun yv =>
          some (GeoEvent.xy xv yv j)) =
        some (GeoEvent.xy (a.x.getD (a.geom_offsets.getD g 0 + j) default)
          (a.y.getD (a.geom_offsets.getD g 0 + j) default) j) := by
      intro j hj
      rw [List.mem_range] at hj
      have hsj : a.geom_offsets.getD g 0 + j < a.x.length := by omega
      have hsjy : a.geom_offsets.getD g 0 + j < a.y.length := by omega
      rw [getElem?_eq_some_getD a.x _ hsj, Option.some_bind,
        getElem?_eq_some_getD a.y _ hsjy, Option.some_bind]
    rw [mapOpt_eq_some_map _ _ _ hinner, Option.some_bind]
  unfold MultiPointArray.process_geom
  rw [mapOpt_eq_some_map _ _ _ hside, Option.some_bind, csub_of_le hn,
    Option.some_bind]
  unfold MultiPointArray.expected_events
  rfl

theorem MultiPolygonArray.ring_step [Inhabited F] (b : MultiPolygonArray F)
    (hrpw : b.ring_offsets.Pairwise (· ≤ ·))
    (hrb : ∀ v ∈ b.ring_offsets, v ≤ b.x.length)
    (hxy : b.x.length = b.y.length)
    (i rj : Nat) (hr1 : i + 1 < b.ring_offsets.length) :
    ((start_end b.ring_offsets i).bind fun sec =>
      (csub sec.2 sec.1).bind fun nc =>
      (mapOpt (fun cj =>
          (b.x[sec.1 + cj]?).bind fun xv =>
          (b.y[sec.1 + cj]?).bind fun yv =>
          some (GeoEvent.xy xv yv cj)) (List.range nc)).bind fun coords =>
      some (GeoEvent.linestring_begin false nc rj ::
        (coords ++ [GeoEvent.linestring_end false rj]))) =
    some (GeoEvent.linestring_begin false
        (b.ring_offsets.getD (i + 1) 0 - b.ring_offsets.getD i 0) rj ::
      (((List.range
          (b.ring_offsets.getD (i + 1) 0 - b.ring_offsets.getD i 0)).map fun cj =>
        GeoEvent.xy (b.x.getD (b.ring_offsets.getD i 0 + cj) default)
          (b.y.getD (b.ring_offsets.getD i 0 + cj) default) cj)
        ++ [GeoEvent.linestring_end false rj])) := by
  have hsc : b.ring_offsets.getD i 0 ≤ b.ring_offsets.getD (i + 1) 0 :=
    pairwise_getD_le b.ring_offsets hrpw i (i + 1) (by omega) hr1
  have hec : b.ring_offsets.getD (i + 1) 0 ≤ b.x.length :=
    getD_le_of_mem_bound b.ring_offsets b.x.length hrb (i + 1) hr1
  rw [start_end_eq b.ring_offsets i hr1, Option.some_bind]
  dsimp only
  rw [csub_of_le hsc, Option.some_bind]
  have hcoords : ∀ cj ∈ List.range
      (b.ring_offsets.getD (i + 1) 0 - b.ring_offsets.getD i 0),
      ((b.x[b.ring_offsets.getD i 0 + cj]?).bind fun xv =>
        (b.y[b.ring_offsets.getD i 0 + cj]?).bind fun yv =>
        some (GeoEvent.xy xv yv cj)) =
      some (GeoEvent.xy (b.x.getD (b.ring_offsets.getD i 0 + cj) default)
        (b.y.getD (b.ring_offsets.getD i 0 + cj) default) cj) := by
    intro cj hcj
    rw [List.mem_range] at hcj
    have hcx : b.ring_offsets.getD i 0 + cj < b.x.length := by omega
    have hcy : b.ring_offsets.getD i 0 + cj < b.y.length := by omega
    rw [getElem?_eq_some_getD b.x _ hcx, Option.some_bind,
      getElem?_eq_some_getD b.y _ hcy, Option.some_bind]
  rw [mapOpt_eq_some_map _ _ _ hcoords, Option.some_bind]

theorem MultiPolygonArray.poly_step [Inhabited F] (b : MultiPolygonArray F)
    (hppw : b.polygon_offsets.Pairwise (· ≤ ·))
    (hrpw : b.ring_offsets.Pairwise (· ≤ ·))
    (hpb : ∀ v ∈ b.polygon_offsets, v ≤ b.ring_offsets.length - 1)
    (hrb : ∀ v ∈ b.ring_offsets, v ≤ b.x.length)
    (hxy : b.x.length = b.y.length)
    (hrlen : 0 < b.ring_offsets.length)
    (i pj : Nat) (hp1 : i + 1 < b.polygon_offsets.length) :
    ((start_end b.polygon_offsets i).bind fun ser =>
      (csub ser.2 ser.1).bind fun nr =>
      (mapOpt (fun rj =>
          (start_end b.ring_offsets (ser.1 + rj)).bind fun sec =>
          (csub sec.2 sec.1).bind fun nc =>
          (mapOpt (fun cj =>
              (b.x[sec.1 + cj]?).bind fun xv =>
              (b.y[sec.1 + cj]?).bind fun yv =>
              some (GeoEvent.xy xv yv cj)) (List.range nc)).bind fun coords =>
          some (GeoEvent.linestring_begin false nc rj ::
            (coords ++ [GeoEvent.linestring_end false rj]))) (List.range nr)).bind
        fun rings =>
      some (GeoEvent.polygon_begin false nr pj ::
        (rings.flatten ++ [GeoEvent.polygon_end false pj]))) =
    some (GeoEvent.polygon_begin false
        (b.polygon_offsets.getD (i + 1) 0 - b.polygon_offsets.getD i 0) pj ::
      (((List.range
          (b.polygon_offsets.getD (i + 1) 0 - b.polygon_offsets.getD i 0)).map fun rj =>
        GeoEvent.linestring_begin false
            (b.ring_offsets.getD (b.polygon_offsets.getD i 0 + rj + 1) 0 -
              b.ring_offsets.getD (b.polygon_offsets.getD i 0 + rj) 0) rj ::
          (((List.range
              (b.ring_offsets.getD (b.polygon_offsets.getD i 0 + rj + 1) 0 -
                b.ring_offsets.getD (b.polygon_offsets.getD i 0 + rj) 0)).map fun cj =>
            GeoEvent.xy
              (b.x.getD (b.ring_offsets.getD (b.polygon_offsets.getD i 0 + rj) 0 + cj)
                default)
              (b.y.getD (b.ring_offsets.getD (b.polygon_offsets.getD i 0 + rj) 0 + cj)
                default) cj)
            ++ [GeoEvent.linestring_end false rj])).flatten
        ++ [GeoEvent.polygon_end false pj])) := by
  have hsr : b.polygon_offsets.getD i 0 ≤ b.polygon_offsets.getD (i + 1) 0 :=
    pairwise_getD_le b.polygon_offsets hppw i (i + 1) (by omega) hp1
  have her : b.polygon_offsets.getD (i + 1) 0 ≤ b.ring_offsets.length - 1 :=
    getD_le_of_mem_bound b.polygon_offsets _ hpb (i + 1) hp1
  rw [start_end_eq b.polygon_offsets i hp1, Option.some_bind]
  dsimp only
  rw [csub_of_le hsr, Option.some_bind]
  rw [mapOpt_eq_some_map _ _ _ (fun rj hrj =>
    MultiPolygonArray.ring_step b hrpw hrb hxy (b.polygon_offsets.getD i 0 + rj) rj
      (by have h2 := List.mem_range.mp hrj; omega)), Option.some_bind]

theorem MultiPolygonArray.geom_step [Inhabited F] (b : MultiPolygonArray F)
    (hgpw : b.geom_offsets.Pairwise (· ≤ ·))
    (hppw : b.polygon_offsets.Pairwise (· ≤ ·))
    (hrpw : b.ring_offsets.Pairwise (· ≤ ·))
    (hgb : ∀ v ∈ b.geom_offsets, v ≤ b.polygon_offsets.length - 1)
    (hpb : ∀ v ∈ b.polygon_offsets, v ≤ b.ring_offsets.length - 1)
    (hrb : ∀ v ∈ b.ring_offsets, v ≤ b.x.length)
    (hxy : b.x.length = b.y.length)
    (hplen : 0 < b.polygon_offsets.length)
    (hrlen : 0 < b.ring_offsets.length)
    (g : Nat) (hg1 : g + 1 < b.geom_offsets.length) :
    ((start_end b.geom_offsets g).bind fun sep =>
      (csub sep.2 sep.1).bind fun np =>
      (mapOpt (fun pj =>
          (start_end b.polygon_offsets (sep.1 + pj)).bind fun ser =>
          (csub ser.2 ser.1).bind fun nr =>
          (mapOpt (fun rj =>
              (start_end b.ring_offsets (ser.1 + rj)).bind fun sec =>
              (csub sec.2 sec.1).bind fun nc =>
              (mapOpt (fun cj =>
                  (b.x[sec.1 + cj]?).bind fun xv =>
                  (b.y[sec.1 + cj]?).bind fun yv =>
                  some (GeoEvent.xy xv yv cj)) (List.range nc)).bind fun coords =>
              some (GeoEvent.linestring_begin false nc rj ::
                (coords ++ [GeoEvent.linestring_end false rj]))) (List.range nr)).bind
            fun rings =>
          some (GeoEvent.polygon_begin false nr pj ::
            (rings.flatten ++ [GeoEvent.polygon_end false pj]))) (List.range np)).bind
        fun polys =>
      some (GeoEvent.multipolygon_begin np g ::
        (polys.flatten ++ [GeoEvent.multipolygon_end g]))) =
    some (GeoEvent.multipolygon_begin
        (b.geom_offsets.getD (g + 1) 0 - b.geom_offsets.getD g 0) g ::
      (((List.range
          (b.geom_offsets.getD (g + 1) 0 - b.geom_offsets.getD g 0)).map fun pj =>
        GeoEvent.polygon_begin false
            (b.polygon_offsets.getD (b.geom_offsets.getD g 0 + pj + 1) 0 -
              b.polygon_offsets.getD (b.geom_offsets.getD g 0 + pj) 0) pj ::
          (((List.range
              (b.polygon_offsets.getD (b.geom_offsets.getD g 0 + pj + 1) 0 -
                b.polygon_offsets.getD (b.geom_offsets.getD g 0 + pj) 0)).map fun rj =>
            GeoEvent.linestring_begin false
                (b.ring_offsets.getD
                    (b.polygon_offsets.getD (b.geom_offsets.getD g 0 + pj) 0 + rj + 1) 0 -
                  b.ring_offsets.getD
                    (b.polygon_offsets.getD (b.geom_offsets.getD g 0 + pj) 0 + rj) 0) rj ::
              (((List.range
                  (b.ring_offsets.getD
                      (b.polygon_offsets.getD (b.geom_offsets.getD g 0 + pj) 0 + rj + 1) 0 -
                    b.ring_offsets.getD
                      (b.polygon_offsets.getD (b.geom_offsets.getD g 0 + pj) 0 + rj) 0)).map
                    fun cj =>
                GeoEvent.xy
                  (b.x.getD
                    (b.ring_offsets.getD
                      (b.polygon_offsets.getD (b.geom_offsets.getD g 0 + pj) 0 + rj) 0 + cj)
                    default)
                  (b.y.getD
                    (b.ring_offsets.getD
                      (b.polygon_offsets.getD (b.geom_offsets.getD g 0 + pj) 0 + rj) 0 + cj)
                    default) cj)
                ++ [GeoEvent.linestring_end false rj])).flatten
            ++ [GeoEvent.polygon_end false pj])).flatten
        ++ [GeoEvent.multipolygon_end g])) := by
  have hsp : b.geom_offsets.getD g 0 ≤ b.geom_offsets.getD (g + 1) 0 :=
    pairwise_getD_le b.geom_offsets hgpw g (g + 1) (by omega) hg1
  have hep : b.geom_offsets.getD (g + 1) 0 ≤ b.polygon_offsets.length - 1 :=
    getD_le_of_mem_bound b.geom_offsets _ hgb (g + 1) hg1
  rw [start_end_eq b.geom_offsets g hg1, Option.some_bind]
  dsimp only
  rw [csub_of_le hsp, Option.some_bind]
  rw [mapOpt_eq_some_map _ _ _ (fun pj hpj =>
    MultiPolygonArray.poly_step b hppw hrpw hpb hrb hxy hrlen
      (b.geom_offsets.getD g 0 + pj) pj
      (by have h2 := List.mem_range.mp hpj; omega)), Option.some_bind]

theorem mpolygon_process_geom_eq_expected [Inhabited F]
    (b : MultiPolygonArray F) (hw : b.wf) (hn : 1 ≤ b.len) :
    b.process_geom = some b.expected_events := by
  obtain ⟨hgne, hpne, hrne, hgpw, hppw, hrpw, hgb, hpb, hrb, hxy⟩ := hw
  have hglen : b.len + 1 = b.geom_offsets.length := by
    have h0 : 0 < b.geom_offsets.length := List.length_pos.mpr hgne
    unfold MultiPolygonArray.len
    omega
  have hplen : 0 < b.polygon_offsets.length := List.length_pos.mpr hpne
  have hrlen : 0 < b.ring_offsets.length := List.length_pos.mpr hrne
  unfold MultiPolygonArray.process_geom
  rw [mapOpt_eq_some_map _ _ _ (fun g hg =>
    MultiPolygonArray.geom_step b hgpw hppw hrpw hgb hpb hrb hxy hplen hrlen g
      (by have h2 := List.mem_range.mp hg; omega)), Option.some_bind,
    csub_of_le hn, Option.some_bind]
  unfold MultiPolygonArray.expected_events
  rfl

/-- C7 (amended): for every well-formed array holding at least one geometry,
process_geom emits exactly the claimed depth-first sequence; the MultiPoint
walk degenerates to multipoint_begin followed directly by xy events. -/
theorem c7_traversal_event_order [Inhabited F] (a : MultiPointArray F)
    (b : MultiPolygonArray F) (hwa : a.wf) (hna : 1 ≤ a.len)
    (hwb : b.wf) (hnb : 1 ≤ b.len) :
    a.process_geom = some a.expected_events ∧
    b.process_geom = some b.expected_events :=
  ⟨mpoint_process_geom_eq_expected a hwa hna, mpolygon_process_geom_eq_expected b hwb hnb⟩

/-- C7 witness: the traversal equality evaluated on the concrete example
arrays. -/
theorem c7_traversal_event_order_witness :
    exMultiPoint.process_geom = some exMultiPoint.expected_events ∧
    exMultiPolygon.process_geom = some exMultiPolygon.expected_events :=
  c7_traversal_event_order exMultiPoint exMultiPolygon
    (by decide) (by decide) (by decide) (by decide)

/-- C7 counterexample: on the empty MultiPolygonArray the traversal does not
successfully emit the claimed event sequence - it aborts on the underflowing
final geometrycollection_end argument. -/
theorem c7_counterexample_empty_array :
    exEmptyMultiPolygon.process_geom ≠ some exEmptyMultiPolygon.expected_events ∧
    exEmptyMultiPolygon.process_geom = none := by
  decide

end GeoArrow
